import Mathlib

/-!
Shallow embedding of `src/xpra/codecs/evdi/evdi_compat.c`.

The translation unit contains a single preprocessor-guarded function:

  #ifndef EVDI_CONNECT_COMPAT
  void evdi_connect_compat(evdi_handle handle, const unsigned char *edid,
            const unsigned int edid_length,
            const uint32_t pixel_area_limit,
            const uint32_t pixel_per_second_limit) {
  #if LIBEVDI_VERSION_MAJOR>1 || LIBEVDI_VERSION_MINOR>11
    return evdi_connect(handle, edid, edid_length, pixel_area_limit,
                        pixel_per_second_limit);
  #else
    return evdi_connect(handle, edid, edid_length, pixel_per_second_limit);
  #endif
  }
  #endif

The opaque handle type `evdi_handle` is embedded as a type parameter `H`;
the EDID pointer (`const unsigned char *`) as a type parameter `E`
(instantiated with `Option (List Nat)` when a genuine null pointer is
needed); the unsigned integer arguments as `Nat` (they are only forwarded,
never computed with, so no overflow arises).  The external primitive
`evdi_connect` is not part of this repository, so it is kept abstract: the
shim is parametrised by a function `evdi_connect : EvdiCall H E → R` and,
besides its return value, we record the list of primitive invocations the
shim performs.  The two compile-time version constants
`LIBEVDI_VERSION_MAJOR` / `LIBEVDI_VERSION_MINOR` become explicit `Nat`
parameters `major` / `minor`, so that one Lean function covers every build.
-/

namespace XpraEvdi

/-- An invocation of the external `evdi_connect` primitive: either the
newer five-argument form or the older four-argument form, carrying the
exact argument values in order. -/
inductive EvdiCall (H E : Type) where
  | connect5 (handle : H) (edid : E) (edid_length : Nat)
      (pixel_area_limit : Nat) (pixel_per_second_limit : Nat)
  | connect4 (handle : H) (edid : E) (edid_length : Nat)
      (pixel_per_second_limit : Nat)
deriving DecidableEq

/-- The handle value passed to the primitive. -/
def EvdiCall.handle {H E : Type} : EvdiCall H E → H
  | .connect5 h _ _ _ _ => h
  | .connect4 h _ _ _ => h

/-- The EDID pointer passed to the primitive. -/
def EvdiCall.edid {H E : Type} : EvdiCall H E → E
  | .connect5 _ e _ _ _ => e
  | .connect4 _ e _ _ => e

/-- The EDID length passed to the primitive. -/
def EvdiCall.edid_length {H E : Type} : EvdiCall H E → Nat
  | .connect5 _ _ l _ _ => l
  | .connect4 _ _ l _ => l

/-- The pixel-per-second limit passed to the primitive. -/
def EvdiCall.pixel_per_second_limit {H E : Type} : EvdiCall H E → Nat
  | .connect5 _ _ _ _ r => r
  | .connect4 _ _ _ r => r

/-- The pixel-area limit passed to the primitive, if the invoked form has
such a parameter at all. -/
def EvdiCall.pixel_area_limit? {H E : Type} : EvdiCall H E → Option Nat
  | .connect5 _ _ _ a _ => some a
  | .connect4 _ _ _ _ => none

/-- Whether the invocation uses the newer five-argument form. -/
def EvdiCall.isFiveArg {H E : Type} : EvdiCall H E → Bool
  | .connect5 _ _ _ _ _ => true
  | .connect4 _ _ _ _ => false

/-- The single `evdi_connect` invocation the shim body performs, as a
function of the build constants and the runtime arguments.  This mirrors
the `#if LIBEVDI_VERSION_MAJOR>1 || LIBEVDI_VERSION_MINOR>11` conditional
around the two call sites in the source. -/
def evdi_connect_call {H E : Type} (major minor : Nat) (handle : H)
    (edid : E) (edid_length pixel_area_limit pixel_per_second_limit : Nat) :
    EvdiCall H E :=
  if major > 1 ∨ minor > 11 then
    .connect5 handle edid edid_length pixel_area_limit pixel_per_second_limit
  else
    .connect4 handle edid edid_length pixel_per_second_limit

/-- Embedding of `evdi_connect_compat`.  The external primitive is the
parameter `evdi_connect`; the shim returns the primitive's return value
together with the list of primitive invocations it performed (the source
body is a single `return evdi_connect(...)` on each preprocessor branch). -/
def evdi_connect_compat {H E R : Type} (evdi_connect : EvdiCall H E → R)
    (major minor : Nat) (handle : H) (edid : E)
    (edid_length pixel_area_limit pixel_per_second_limit : Nat) :
    R × List (EvdiCall H E) :=
  if major > 1 ∨ minor > 11 then
    (evdi_connect (.connect5 handle edid edid_length pixel_area_limit
        pixel_per_second_limit),
      [.connect5 handle edid edid_length pixel_area_limit
        pixel_per_second_limit])
  else
    (evdi_connect (.connect4 handle edid edid_length pixel_per_second_limit),
      [.connect4 handle edid edid_length pixel_per_second_limit])

/-- The argument tuple of one call to the shim. -/
structure ConnectArgs (H E : Type) where
  handle : H
  edid : E
  edid_length : Nat
  pixel_area_limit : Nat
  pixel_per_second_limit : Nat

/-- A sequence of calls to the shim in one process: the shim holds no
state of its own, so a run is just each call evaluated in turn. -/
def runShim {H E R : Type} (evdi_connect : EvdiCall H E → R)
    (major minor : Nat) (calls : List (ConnectArgs H E)) :
    List (R × List (EvdiCall H E)) :=
  calls.map (fun t => evdi_connect_compat evdi_connect major minor
    t.handle t.edid t.edid_length t.pixel_area_limit t.pixel_per_second_limit)

/-- Build-time model of the `#ifndef EVDI_CONNECT_COMPAT` guard around the
whole function: how many definitions of `evdi_connect_compat` this
translation unit contributes, given whether the library headers define
the macro `EVDI_CONNECT_COMPAT`. -/
def shimDefinitionCount (EVDI_CONNECT_COMPAT_defined : Bool) : Nat :=
  if EVDI_CONNECT_COMPAT_defined then 0 else 1

/-- Modelled from the spec: the external library natively provides its own
connect-compat symbol exactly when its headers define the macro
`EVDI_CONNECT_COMPAT` (the library's own definition is not part of this
repository). -/
def nativeDefinitionCount (EVDI_CONNECT_COMPAT_defined : Bool) : Nat :=
  if EVDI_CONNECT_COMPAT_defined then 1 else 0

/-- The shim's body performs exactly the invocation `evdi_connect_call`
and returns the primitive's value on it. -/
theorem evdi_connect_compat_eq {H E R : Type} (evdi_connect : EvdiCall H E → R)
    (major minor : Nat) (handle : H) (edid : E)
    (edid_length pixel_area_limit pixel_per_second_limit : Nat) :
    evdi_connect_compat evdi_connect major minor handle edid
        edid_length pixel_area_limit pixel_per_second_limit =
      (evdi_connect (evdi_connect_call major minor handle edid
          edid_length pixel_area_limit pixel_per_second_limit),
        [evdi_connect_call major minor handle edid
          edid_length pixel_area_limit pixel_per_second_limit]) := by
  unfold evdi_connect_compat evdi_connect_call
  split <;> rfl

/-- C1: whenever the version constants satisfy `major > 1`, or `major = 1`
and `minor > 11` (version ≥ 1.12), the shim invokes the underlying
five-argument connect primitive with exactly the five caller-supplied
values, in that order, unchanged, and returns its value. -/
theorem evdi_C1_new_version_five_arg_forward {H E R : Type}
    (evdi_connect : EvdiCall H E → R) (major minor : Nat)
    (hv : major > 1 ∨ (major = 1 ∧ minor > 11)) (handle : H) (edid : E)
    (edid_length pixel_area_limit pixel_per_second_limit : Nat) :
    evdi_connect_compat evdi_connect major minor handle edid
        edid_length pixel_area_limit pixel_per_second_limit =
      (evdi_connect (.connect5 handle edid edid_length pixel_area_limit
          pixel_per_second_limit),
        [.connect5 handle edid edid_length pixel_area_limit
          pixel_per_second_limit]) := by
  have hc : major > 1 ∨ minor > 11 := by
    rcases hv with h1 | ⟨_, h2⟩
    · exact Or.inl h1
    · exact Or.inr h2
  unfold evdi_connect_compat
  rw [if_pos hc]

/-- Witness for C1 at the build `(major, minor) = (1, 12)` with concrete
arguments `(5, some [0, 255], 2, 1000, 60)` and a concrete primitive. -/
theorem evdi_C1_witness :
    evdi_connect_compat (fun _ => (7 : Nat)) 1 12 (5 : Nat)
        (some [0, 255] : Option (List Nat)) 2 1000 60 =
      (7, [.connect5 5 (some [0, 255]) 2 1000 60]) :=
  evdi_C1_new_version_five_arg_forward (fun _ => (7 : Nat)) 1 12
    (Or.inr ⟨rfl, by decide⟩) 5 (some [0, 255]) 2 1000 60

/-- C2 counterexample: at build constants `(major, minor) = (0, 12)` the
version is ≤ 1.11 in lexicographic order (since `major < 1`), yet the
shim's invocation uses the five-argument form and does pass the
pixel-area limit, so the claim as stated fails. -/
theorem evdi_C2_counterexample :
    ((0 : Nat) < 1 ∨ ((0 : Nat) = 1 ∧ (12 : Nat) ≤ 11)) ∧
    (evdi_connect_call 0 12 (3 : Nat) (some [1] : Option (List Nat))
        1 5 9).isFiveArg = true ∧
    (evdi_connect_call 0 12 (3 : Nat) (some [1] : Option (List Nat))
        1 5 9).pixel_area_limit? = some 5 := by
  refine ⟨Or.inl (by decide), ?_, ?_⟩ <;> rfl

/-- C2 (amended): whenever `major ≤ 1` and `minor ≤ 11` (the compile-time
condition `major > 1 ∨ minor > 11` of the source fails), the shim invokes
the underlying four-argument primitive with exactly
`(handle, edid, edid_length, pixel_per_second_limit)` in that order, an
invocation in which no pixel-area-limit parameter exists at all. -/
theorem evdi_C2_old_version_four_arg_forward {H E R : Type}
    (evdi_connect : EvdiCall H E → R) (major minor : Nat)
    (hmaj : major ≤ 1) (hmin : minor ≤ 11) (handle : H) (edid : E)
    (edid_length pixel_area_limit pixel_per_second_limit : Nat) :
    evdi_connect_compat evdi_connect major minor handle edid
        edid_length pixel_area_limit pixel_per_second_limit =
      (evdi_connect (.connect4 handle edid edid_length
          pixel_per_second_limit),
        [.connect4 handle edid edid_length pixel_per_second_limit]) ∧
    (EvdiCall.connect4 (E := E) handle edid edid_length
        pixel_per_second_limit).pixel_area_limit? = none := by
  have hc : ¬(major > 1 ∨ minor > 11) := by
    rintro (h1 | h2)
    · exact absurd hmaj (by omega)
    · exact absurd hmin (by omega)
  constructor
  · unfold evdi_connect_compat
    rw [if_neg hc]
  · rfl

/-- Witness for C2 (amended) at the build `(major, minor) = (1, 11)` with
concrete arguments `(5, some [0, 255], 2, 1000, 60)`. -/
theorem evdi_C2_witness :
    evdi_connect_compat (fun _ => (7 : Nat)) 1 11 (5 : Nat)
        (some [0, 255] : Option (List Nat)) 2 1000 60 =
      (7, [.connect4 5 (some [0, 255]) 2 60]) ∧
    (EvdiCall.connect4 (E := Option (List Nat)) (5 : Nat)
        (some [0, 255]) 2 60).pixel_area_limit? = none :=
  evdi_C2_old_version_four_arg_forward (fun _ => (7 : Nat)) 1 11
    (by decide) (by decide) 5 (some [0, 255]) 2 1000 60

/-- C3: on every build and every argument tuple, the shim's return value
is exactly the value the underlying primitive returns on the invocation
the shim makes — for every possible primitive, so the value is neither
interpreted nor transformed nor wrapped, and no failure condition
originates in the shim. -/
theorem evdi_C3_return_passthrough {H E R : Type}
    (evdi_connect : EvdiCall H E → R) (major minor : Nat) (handle : H)
    (edid : E) (edid_length pixel_area_limit pixel_per_second_limit : Nat) :
    (evdi_connect_compat evdi_connect major minor handle edid
        edid_length pixel_area_limit pixel_per_second_limit).1 =
      evdi_connect (evdi_connect_call major minor handle edid
        edid_length pixel_area_limit pixel_per_second_limit) := by
  rw [evdi_connect_compat_eq]

/-- C4: for fixed build constants, which primitive form is invoked is the
same for every runtime argument tuple — even across different handle and
EDID types. -/
theorem evdi_C4_form_independent_of_arguments {H E H' E' : Type}
    (major minor : Nat) (handle : H) (edid : E)
    (edid_length pixel_area_limit pixel_per_second_limit : Nat)
    (handle' : H') (edid' : E')
    (edid_length' pixel_area_limit' pixel_per_second_limit' : Nat) :
    (evdi_connect_call major minor handle edid edid_length
        pixel_area_limit pixel_per_second_limit).isFiveArg =
      (evdi_connect_call major minor handle' edid' edid_length'
        pixel_area_limit' pixel_per_second_limit').isFiveArg := by
  unfold evdi_connect_call
  split <;> rfl

/-- C5: when the compile-time condition fails (`major ≤ 1` and
`minor ≤ 11`, the older four-argument signature), two shim calls differing
only in the pixel-area limit perform the identical primitive invocation
and return the identical result. -/
theorem evdi_C5_area_limit_has_no_effect_on_old_path {H E R : Type}
    (evdi_connect : EvdiCall H E → R) (major minor : Nat)
    (hmaj : major ≤ 1) (hmin : minor ≤ 11) (handle : H) (edid : E)
    (edid_length pixel_area_limit₁ pixel_area_limit₂
      pixel_per_second_limit : Nat) :
    evdi_connect_compat evdi_connect major minor handle edid
        edid_length pixel_area_limit₁ pixel_per_second_limit =
      evdi_connect_compat evdi_connect major minor handle edid
        edid_length pixel_area_limit₂ pixel_per_second_limit := by
  have hc : ¬(major > 1 ∨ minor > 11) := by
    rintro (h1 | h2)
    · exact absurd hmaj (by omega)
    · exact absurd hmin (by omega)
  unfold evdi_connect_compat
  rw [if_neg hc, if_neg hc]

/-- Witness for C5 at the build `(1, 11)` with area limits 1000 and 0. -/
theorem evdi_C5_witness :
    evdi_connect_compat (fun _ => (7 : Nat)) 1 11 (5 : Nat)
        (some [0, 255] : Option (List Nat)) 2 1000 60 =
      evdi_connect_compat (fun _ => (7 : Nat)) 1 11 (5 : Nat)
        (some [0, 255] : Option (List Nat)) 2 0 60 :=
  evdi_C5_area_limit_has_no_effect_on_old_path (fun _ => (7 : Nat)) 1 11
    (by decide) (by decide) 5 (some [0, 255]) 2 1000 0 60

/-- C6: the translation unit defines `evdi_connect_compat` exactly when
the library headers do not define `EVDI_CONNECT_COMPAT`; in either case
the build ends up with exactly one definition of the symbol, so no
duplicate definition is ever introduced. -/
theorem evdi_C6_no_duplicate_definition :
    shimDefinitionCount true = 0 ∧ shimDefinitionCount false = 1 ∧
    ∀ b : Bool, shimDefinitionCount b + nativeDefinitionCount b = 1 := by
  refine ⟨rfl, rfl, ?_⟩
  intro b
  cases b <;> rfl

/-- C7: on every build and every argument tuple, each value the shim
passes to the primitive equals the corresponding caller-supplied value:
the handle, EDID pointer, EDID length and pixel-per-second limit are
forwarded unchanged, and the pixel-area-limit parameter, when the invoked
form has one, holds exactly the caller's value. -/
theorem evdi_C7_arguments_forwarded_unchanged {H E : Type}
    (major minor : Nat) (handle : H) (edid : E)
    (edid_length pixel_area_limit pixel_per_second_limit : Nat) :
    (evdi_connect_call major minor handle edid edid_length
        pixel_area_limit pixel_per_second_limit).handle = handle ∧
    (evdi_connect_call major minor handle edid edid_length
        pixel_area_limit pixel_per_second_limit).edid = edid ∧
    (evdi_connect_call major minor handle edid edid_length
        pixel_area_limit pixel_per_second_limit).edid_length = edid_length ∧
    (evdi_connect_call major minor handle edid edid_length
        pixel_area_limit
        pixel_per_second_limit).pixel_per_second_limit =
      pixel_per_second_limit ∧
    ((evdi_connect_call major minor handle edid edid_length
        pixel_area_limit pixel_per_second_limit).pixel_area_limit? =
        some pixel_area_limit ∨
      (evdi_connect_call major minor handle edid edid_length
        pixel_area_limit pixel_per_second_limit).pixel_area_limit? =
        none) := by
  unfold evdi_connect_call
  split
  · exact ⟨rfl, rfl, rfl, rfl, Or.inl rfl⟩
  · exact ⟨rfl, rfl, rfl, rfl, Or.inr rfl⟩

/-- C8: the shim keeps no state: in any run, the outcome of a call
depends only on the build constants, the primitive and that call's own
arguments — the same final call after any two different histories of
preceding calls yields the same primitive invocation and the same
result. -/
theorem evdi_C8_stateless_history_independent {H E R : Type}
    (evdi_connect : EvdiCall H E → R) (major minor : Nat)
    (history₁ history₂ : List (ConnectArgs H E)) (t : ConnectArgs H E) :
    (runShim evdi_connect major minor (history₁ ++ [t])).getLast? =
      (runShim evdi_connect major minor (history₂ ++ [t])).getLast? := by
  unfold runShim
  simp [List.getLast?_concat]

/-- C9: every call to the shim performs exactly one invocation of the
underlying `evdi_connect` primitive, on either version path. -/
theorem evdi_C9_primitive_called_exactly_once {H E R : Type}
    (evdi_connect : EvdiCall H E → R) (major minor : Nat) (handle : H)
    (edid : E)
    (edid_length pixel_area_limit pixel_per_second_limit : Nat) :
    (evdi_connect_compat evdi_connect major minor handle edid
        edid_length pixel_area_limit pixel_per_second_limit).2.length = 1 := by
  unfold evdi_connect_compat
  split <;> rfl

/-- C10: the shim performs no input validation: even with a null EDID
pointer, a zero EDID length and zero limits, on every build it still
performs exactly one primitive invocation carrying those degenerate
values as-is, never inspecting the buffer, and still returns exactly the
primitive's value — there is no rejection branch. -/
theorem evdi_C10_no_validation_degenerate_inputs {H R : Type}
    (evdi_connect : EvdiCall H (Option (List Nat)) → R)
    (major minor : Nat) (handle : H) :
    (evdi_connect_compat evdi_connect major minor handle none 0 0 0).2 =
      [evdi_connect_call major minor handle none 0 0 0] ∧
    (evdi_connect_call major minor handle
        (none : Option (List Nat)) 0 0 0).edid = none ∧
    (evdi_connect_call major minor handle
        (none : Option (List Nat)) 0 0 0).edid_length = 0 ∧
    (evdi_connect_call major minor handle
        (none : Option (List Nat)) 0 0 0).pixel_per_second_limit = 0 ∧
    (evdi_connect_compat evdi_connect major minor handle none 0 0 0).1 =
      evdi_connect (evdi_connect_call major minor handle none 0 0 0) := by
  rw [evdi_connect_compat_eq]
  refine ⟨rfl, ?_, ?_, ?_, rfl⟩ <;>
    · unfold evdi_connect_call
      split <;> rfl

end XpraEvdi
